import Mathlib

/-!
# Travel-AI backend: verification of the plan-generation pipeline

Shallow embedding of the core of the `travel-ai-backend` repository:

* `src/utils/planUtils.js`           — normalizer (processing-time estimate, cache key)
* `src/utils/destinationVerification.js` — destination safety gate
* `src/utils/priceValidation.js`     — price sanity validator and outlier detector
* `src/services/geminiService.js`    — AI response structural validation and credits
* `src/controllers/userController.js` — orchestration (`generateTravelPlan`, `processTravelPlan`)

Modelling conventions:

* JavaScript numbers are embedded as `ℚ` (exact rationals).  Every claim
  checked here is far from any binary-floating-point rounding boundary, so the
  branch taken by the JS code and by the rational model coincide.
* `Math.round x` is embedded as `⌊x + 1/2⌋` (round half toward +∞), and
  `Math.ceil (x / 1000)` on naturals as `(x + 999) / 1000`.
* The z-score comparison `|v - mean| / stdDev > 2` (with
  `stdDev = Real.sqrt variance`) is embedded without square roots as
  `(v - mean)^2 / variance > 4`, which is equivalent for `variance > 0`.
  For `variance = 0` the JS code computes `0/0 = NaN` and `NaN > 2` is
  `false`; the rational model computes `0 / 0 = 0` and `0 > 4` is `false`,
  so the two agree on every input.
* Collaborators that live outside the repository (the MongoDB driver, the
  Gemini transport, node's `crypto.createHash('md5')`, the live
  currency-exchange HTTP APIs) are passed in as explicit function arguments.
* Strings are handled with list-of-character primitives (`jsToLower`,
  `jsTrim`, `strContainsSub`) that mirror `toLowerCase`, `trim` and
  `includes` on the ASCII strings appearing in the static tables.
-/

namespace TravelAI

/-- `String.toLowerCase()` on the ASCII strings used by the static tables. -/
def jsToLower (s : String) : String := ⟨s.data.map Char.toLower⟩

/-- `String.trim()`: strip leading and trailing whitespace. -/
def jsTrim (s : String) : String :=
  ⟨((s.data.dropWhile Char.isWhitespace).reverse.dropWhile Char.isWhitespace).reverse⟩

/-- One step of `String.includes`: does `pat` occur as a contiguous
substring of the character list `l`? -/
def charsContain (pat : List Char) : List Char → Bool
  | [] => pat.isEmpty
  | c :: rest => pat.isPrefixOf (c :: rest) || charsContain pat rest

/-- `s.includes(pat)` from JavaScript. -/
def strContainsSub (s pat : String) : Bool :=
  charsContain pat.data s.data

/-- `Math.round` on a rational: round half toward positive infinity,
i.e. the floor of `q + 1/2`. -/
def jsRound (q : ℚ) : ℤ := (q + 1/2).floor

/-! ## Plan request normalizer (`src/utils/planUtils.js`) -/

/-- Travel preferences (`preferences` object of a plan request).  `none`
fields model absent (`undefined`) JS properties. -/
structure Preferences where
  travelStyle : Option String
  interests : Option (List String)
  deriving DecidableEq, Repr

/-- A plan request as the controller sees it.  Dates are embedded as
whole-day offsets (the JS code parses ISO dates and divides millisecond
differences by 86 400 000, which is exact on whole days). -/
structure PlanRequest where
  destination : String
  startDate : ℤ
  endDate : ℤ
  budget : ℚ
  currency : String
  travelers : Option ℕ
  preferences : Option Preferences
  language : Option String
  deriving DecidableEq, Repr

/-- `calculateTripDuration` / `calculateDuration`:
`Math.ceil(|end - start| / day)`, exact on whole-day offsets. -/
def calculateDuration (startDate endDate : ℤ) : ℕ :=
  (endDate - startDate).natAbs

/-- `estimateProcessingTime(destination, duration, travelers)` from
`planUtils.js`: base 10 s, plus `min(duration*2, 20)`, plus
`min(travelers*2, 10)`, plus 10 s for "complex" destinations, capped at
45 s. -/
def estimateProcessingTime (destination : String) (duration travelers : ℕ) : ℕ :=
  let base := 10
  let withDuration := base + min (duration * 2) 20
  let withTravelers := withDuration + min (travelers * 2) 10
  let complexDestinations := ["asia", "africa", "multiple", "tour"]
  let withComplex :=
    if complexDestinations.any (fun keyword => strContainsSub (jsToLower destination) keyword) then
      withTravelers + 10
    else withTravelers
  min withComplex 45

/-- The "complex destination" keyword test used by `estimateProcessingTime`. -/
def isComplexDestination (destination : String) : Bool :=
  ["asia", "africa", "multiple", "tour"].any
    (fun keyword => strContainsSub (jsToLower destination) keyword)

/-! ## Cache fingerprint (`generateCacheKey` in `src/utils/planUtils.js`) -/

/-- Insert a string into a lexicographically sorted list (`Array.sort()`
sorts strings by code units; on ASCII this agrees with `String ≤`). -/
def insertSortedString (s : String) : List String → List String
  | [] => [s]
  | x :: xs => if s ≤ x then s :: x :: xs else x :: insertSortedString s xs

/-- `interests.sort()` (JS default lexicographic string sort). -/
def sortStrings (l : List String) : List String :=
  l.foldr insertSortedString []

/-- `Math.round(budget / 100) * 100` — budget rounded to the nearest 100
before entering the cache key. -/
def roundBudgetTo100 (budget : ℚ) : ℤ :=
  jsRound (budget / 100) * 100

/-- The `keyData` object that `generateCacheKey` serializes and hashes. -/
structure CacheKeyData where
  destination : String
  startDate : ℤ
  endDate : ℤ
  budget : ℤ
  currency : String
  travelers : Option ℕ
  travelStyle : String
  interests : String
  deriving DecidableEq, Repr

/-- `preferences?.travelStyle || 'mid-range'` (the empty string is falsy). -/
def cacheTravelStyle (r : PlanRequest) : String :=
  let s := ((r.preferences.bind Preferences.travelStyle).getD "")
  if s = "" then "mid-range" else s

/-- `preferences?.interests?.sort().join(',') || ''`. -/
def cacheInterests (r : PlanRequest) : String :=
  match r.preferences.bind Preferences.interests with
  | none => ""
  | some l => String.intercalate "," (sortStrings l)

/-- The key data computed by `generateCacheKey` before hashing:
destination lower-cased and trimmed, raw dates, budget rounded to the
nearest 100, currency, travelers, defaulted travel style, sorted
comma-joined interests. -/
def cacheKeyData (r : PlanRequest) : CacheKeyData :=
  { destination := jsTrim (jsToLower r.destination)
    startDate := r.startDate
    endDate := r.endDate
    budget := roundBudgetTo100 r.budget
    currency := r.currency
    travelers := r.travelers
    travelStyle := cacheTravelStyle r
    interests := cacheInterests r }

/-- `generateCacheKey`: the MD5 digest of `JSON.stringify(keyData)`.
`crypto.createHash('md5')` and `JSON.stringify` live outside the
repository, so the composite serialize-and-digest step is passed in as an
abstract function `hash` on the key data computed by the repository's own
code. -/
def generateCacheKey {α : Type} (hash : CacheKeyData → α) (r : PlanRequest) : α :=
  hash (cacheKeyData r)

/-! ## Credits accounting (`src/services/geminiService.js`) -/

/-- Gemini usage metadata; `none` counts model absent properties
(`promptTokenCount || 0` treats both `undefined` and `0` as `0`). -/
structure UsageMetadata where
  promptTokenCount : Option ℕ
  candidatesTokenCount : Option ℕ
  deriving DecidableEq, Repr

/-- `calculateCreditsUsed(usageMetadata)`: `1` when the metadata object is
absent, else `Math.ceil((inputTokens + outputTokens) / 1000)`. -/
def calculateCreditsUsed : Option UsageMetadata → ℕ
  | none => 1
  | some u =>
      let inputTokens := u.promptTokenCount.getD 0
      let outputTokens := u.candidatesTokenCount.getD 0
      (inputTokens + outputTokens + 999) / 1000

/-! ## Destination safety gate (`src/utils/destinationVerification.js`) -/

/-- Per-country entry of the safe/advisory destination tables. -/
structure DestEntry where
  safe : Bool
  visaRequired : Bool
  warnings : List String
  deriving DecidableEq, Repr

/-- `safeDestinations` table, in source order. -/
def safeDestinations : List (String × DestEntry) :=
  [ ("Austria", ⟨true, false, []⟩), ("Belgium", ⟨true, false, []⟩),
    ("Bulgaria", ⟨true, false, []⟩), ("Croatia", ⟨true, false, []⟩),
    ("Cyprus", ⟨true, false, []⟩), ("Czech Republic", ⟨true, false, []⟩),
    ("Denmark", ⟨true, false, []⟩), ("Estonia", ⟨true, false, []⟩),
    ("Finland", ⟨true, false, []⟩), ("France", ⟨true, false, []⟩),
    ("Germany", ⟨true, false, []⟩), ("Greece", ⟨true, false, []⟩),
    ("Hungary", ⟨true, false, []⟩), ("Ireland", ⟨true, false, []⟩),
    ("Italy", ⟨true, false, []⟩), ("Latvia", ⟨true, false, []⟩),
    ("Lithuania", ⟨true, false, []⟩), ("Luxembourg", ⟨true, false, []⟩),
    ("Malta", ⟨true, false, []⟩), ("Netherlands", ⟨true, false, []⟩),
    ("Poland", ⟨true, false, []⟩), ("Portugal", ⟨true, false, []⟩),
    ("Romania", ⟨true, false, []⟩), ("Slovakia", ⟨true, false, []⟩),
    ("Slovenia", ⟨true, false, []⟩), ("Spain", ⟨true, false, []⟩),
    ("Sweden", ⟨true, false, []⟩),
    ("Turkey", ⟨true, false, []⟩), ("United Kingdom", ⟨true, false, []⟩),
    ("Norway", ⟨true, false, []⟩), ("Switzerland", ⟨true, false, []⟩),
    ("Iceland", ⟨true, false, []⟩), ("Canada", ⟨true, true, []⟩),
    ("United States", ⟨true, true, []⟩), ("Australia", ⟨true, true, []⟩),
    ("New Zealand", ⟨true, true, []⟩), ("Japan", ⟨true, false, []⟩),
    ("South Korea", ⟨true, false, []⟩), ("Singapore", ⟨true, false, []⟩),
    ("Malaysia", ⟨true, false, []⟩), ("Thailand", ⟨true, false, []⟩),
    ("Indonesia", ⟨true, true, []⟩), ("Vietnam", ⟨true, true, []⟩),
    ("Philippines", ⟨true, false, []⟩), ("India", ⟨true, true, []⟩),
    ("Nepal", ⟨true, true, []⟩), ("Sri Lanka", ⟨true, true, []⟩),
    ("Maldives", ⟨true, false, []⟩), ("United Arab Emirates", ⟨true, false, []⟩),
    ("Qatar", ⟨true, false, []⟩), ("Oman", ⟨true, true, []⟩),
    ("Jordan", ⟨true, true, []⟩),
    ("Israel", ⟨true, false, ["Check latest security situation"]⟩),
    ("Morocco", ⟨true, false, []⟩),
    ("Egypt", ⟨true, true, ["Check latest security situation"]⟩),
    ("South Africa", ⟨true, false, ["Take precautions in certain areas"]⟩),
    ("Kenya", ⟨true, true, []⟩), ("Tanzania", ⟨true, true, []⟩),
    ("Brazil", ⟨true, false, ["Take precautions in certain areas"]⟩),
    ("Argentina", ⟨true, false, []⟩), ("Chile", ⟨true, false, []⟩),
    ("Peru", ⟨true, false, []⟩),
    ("Mexico", ⟨true, false, ["Check latest security situation"]⟩),
    ("Costa Rica", ⟨true, false, []⟩), ("Panama", ⟨true, false, []⟩) ]

/-- `advisoryDestinations` table, in source order. -/
def advisoryDestinations : List (String × DestEntry) :=
  [ ("Afghanistan", ⟨false, true, ["Do not travel - extreme security risk"]⟩),
    ("Iraq", ⟨false, true, ["Do not travel - extreme security risk"]⟩),
    ("Syria", ⟨false, true, ["Do not travel - active conflict"]⟩),
    ("Yemen", ⟨false, true, ["Do not travel - active conflict"]⟩),
    ("Somalia", ⟨false, true, ["Do not travel - extreme security risk"]⟩),
    ("Libya", ⟨false, true, ["Do not travel - active conflict"]⟩),
    ("Mali", ⟨false, true, ["Do not travel - security threats"]⟩),
    ("Burkina Faso", ⟨false, true, ["Reconsider travel - security threats"]⟩),
    ("Chad", ⟨false, true, ["Reconsider travel - security threats"]⟩),
    ("Central African Republic", ⟨false, true, ["Do not travel - active conflict"]⟩),
    ("South Sudan", ⟨false, true, ["Do not travel - active conflict"]⟩),
    ("Democratic Republic of Congo", ⟨false, true, ["Reconsider travel - security threats"]⟩),
    ("Venezuela", ⟨false, true, ["Reconsider travel - political instability"]⟩),
    ("Myanmar", ⟨false, true, ["Reconsider travel - political instability"]⟩),
    ("Belarus", ⟨false, true, ["Reconsider travel - political situation"]⟩),
    ("North Korea", ⟨false, true, ["Do not travel - extreme restrictions"]⟩),
    ("Iran", ⟨false, true, ["Reconsider travel - security risks"]⟩),
    ("Russia", ⟨false, true, ["Reconsider travel - current situation"]⟩),
    ("Ukraine", ⟨false, true, ["Do not travel - active conflict"]⟩) ]

/-- City table: city name, country, airport code (timezone omitted —
never read by the pipeline). -/
def cityInfo : List (String × String × String) :=
  [ ("Istanbul", "Turkey", "IST"), ("Ankara", "Turkey", "ESB"),
    ("Antalya", "Turkey", "AYT"), ("Paris", "France", "CDG"),
    ("London", "United Kingdom", "LHR"), ("Rome", "Italy", "FCO"),
    ("Barcelona", "Spain", "BCN"), ("Amsterdam", "Netherlands", "AMS"),
    ("Berlin", "Germany", "BER"), ("Vienna", "Austria", "VIE"),
    ("Prague", "Czech Republic", "PRG"), ("Budapest", "Hungary", "BUD"),
    ("Warsaw", "Poland", "WAW"), ("Stockholm", "Sweden", "ARN"),
    ("Copenhagen", "Denmark", "CPH"), ("Oslo", "Norway", "OSL"),
    ("Helsinki", "Finland", "HEL"), ("Zurich", "Switzerland", "ZUR"),
    ("Bangkok", "Thailand", "BKK"), ("Tokyo", "Japan", "NRT"),
    ("Seoul", "South Korea", "ICN"), ("Singapore", "Singapore", "SIN"),
    ("Dubai", "United Arab Emirates", "DXB"), ("New York", "United States", "JFK"),
    ("Los Angeles", "United States", "LAX"), ("Toronto", "Canada", "YYZ"),
    ("Sydney", "Australia", "SYD"), ("Melbourne", "Australia", "MEL") ]

/-- Result of `parseDestination`. -/
structure ParsedLocation where
  city : Option String
  country : String
  deriving DecidableEq, Repr

/-- `parseDestination(destination)`: lower-case and trim, then try known
cities (substring match, table order), then known countries
(safe table keys followed by advisory table keys), then a handful of
hard-coded patterns, else `"Unknown"`. -/
def parseDestination (destination : String) : ParsedLocation :=
  let cleaned := jsTrim (jsToLower destination)
  match cityInfo.find? (fun e => strContainsSub cleaned (jsToLower e.1)) with
  | some e => { city := some e.1, country := e.2.1 }
  | none =>
    let countryKeys := safeDestinations.map Prod.fst ++ advisoryDestinations.map Prod.fst
    match countryKeys.find? (fun c => strContainsSub cleaned (jsToLower c)) with
    | some c => { city := none, country := c }
    | none =>
      if strContainsSub cleaned "turkey" || strContainsSub cleaned "tÃ¼rkiye" then
        { city := none, country := "Turkey" }
      else if strContainsSub cleaned "thailand" then { city := none, country := "Thailand" }
      else if strContainsSub cleaned "france" then { city := none, country := "France" }
      else if strContainsSub cleaned "italy" then { city := none, country := "Italy" }
      else if strContainsSub cleaned "spain" then { city := none, country := "Spain" }
      else if strContainsSub cleaned "germany" then { city := none, country := "Germany" }
      else { city := none, country := "Unknown" }

/-- Accessibility sub-record of a destination verdict. -/
structure Accessibility where
  hasAirport : Bool
  transportOptions : List String
  visaFree : Bool
  deriving DecidableEq, Repr

/-- `DestinationVerdict`: output of `verifyDestination`. -/
structure DestinationVerdict where
  isAccessible : Bool
  isSafe : Bool
  country : String
  visaRequired : Bool
  warnings : List String
  recommendations : List String
  travelAdvisory : Option String
  accessibility : Accessibility
  deriving DecidableEq, Repr

/-- Associative lookup in a string-keyed table (JS object indexing). -/
def tableLookup (table : List (String × DestEntry)) (key : String) : Option DestEntry :=
  (table.find? (fun e => e.1 = key)).map Prod.snd

/-- Lookup in the city table by exact city name. -/
def cityLookup (city : String) : Option (String × String) :=
  (cityInfo.find? (fun e => e.1 = city)).map Prod.snd

/-- Countries visa-free for Turkish passport holders. -/
def visaFreeForTurks : List String :=
  [ "Turkey", "Albania", "Bosnia and Herzegovina", "Montenegro", "Serbia",
    "North Macedonia", "Moldova", "Ukraine", "Georgia", "Azerbaijan",
    "Kazakhstan", "Kyrgyzstan", "Uzbekistan", "Tajikistan", "Qatar",
    "Malaysia", "Thailand", "Philippines", "Indonesia", "Singapore",
    "South Korea", "Japan", "Hong Kong", "Macao", "Morocco", "Tunisia",
    "South Africa", "Brazil", "Argentina", "Chile", "Peru", "Colombia",
    "Ecuador", "Bolivia", "Paraguay", "Uruguay" ]

/-- E-visa countries for Turkish passport holders. -/
def eVisaCountries : List String :=
  [ "United States", "Canada", "Australia", "India", "Vietnam",
    "Egypt", "Kenya", "Tanzania", "Ethiopia", "Madagascar",
    "Cambodia", "Laos", "Myanmar", "Sri Lanka", "Bangladesh" ]

/-- Schengen-area countries. -/
def schengenCountries : List String :=
  [ "Austria", "Belgium", "Czech Republic", "Denmark", "Estonia",
    "Finland", "France", "Germany", "Greece", "Hungary", "Iceland",
    "Italy", "Latvia", "Lithuania", "Luxembourg", "Malta",
    "Netherlands", "Norway", "Poland", "Portugal", "Slovakia",
    "Slovenia", "Spain", "Sweden", "Switzerland" ]

/-- First statement of `addTurkishTravelerRecommendations`: the
visa-free / e-visa / Schengen `if`/`else if` chain. -/
def addVisaClassRecommendation (result : DestinationVerdict) (country : String) :
    DestinationVerdict :=
  if visaFreeForTurks.contains country then
    { result with
      accessibility := { result.accessibility with visaFree := true }
      recommendations :=
        result.recommendations ++ ["Visa-free travel for Turkish passport holders"]
      visaRequired := false }
  else if eVisaCountries.contains country then
    { result with
      recommendations :=
        result.recommendations ++ ["E-visa available for Turkish passport holders"] }
  else if schengenCountries.contains country then
    { result with
      recommendations :=
        result.recommendations ++
          ["Schengen visa required - can visit multiple EU countries"] }
  else result

/-- Append recommendations when the country matches (one of the
country-specific `if` statements). -/
def addCountryRecommendation (result : DestinationVerdict) (country target : String)
    (recs : List String) : DestinationVerdict :=
  if country = target then
    { result with recommendations := result.recommendations ++ recs }
  else result

/-- Last statement of `addTurkishTravelerRecommendations`: the Schengen
consulate recommendations. -/
def addSchengenRecommendation (result : DestinationVerdict) (country : String) :
    DestinationVerdict :=
  if schengenCountries.contains country then
    { result with recommendations :=
        result.recommendations ++
          ["Apply for Schengen visa at consulate",
           "Travel insurance required for Schengen visa"] }
  else result

/-- `addTurkishTravelerRecommendations(result, country)`: mutates visa
information and appends recommendations for Turkish passport holders.
The JS body is a sequence of `if` statements, embedded here as a
composition of the steps above in statement order. -/
def addTurkishTravelerRecommendations (result : DestinationVerdict) (country : String) :
    DestinationVerdict :=
  let r1 := addVisaClassRecommendation result country
  let r2 := addCountryRecommendation r1 country "United States"
    ["ESTA or B1/B2 visa required", "Interview may be required for visa"]
  let r3 := addCountryRecommendation r2 country "United Kingdom"
    ["UK visa required for Turkish passport holders"]
  let r4 := addCountryRecommendation r3 country "Canada" ["eTA or visitor visa required"]
  let r5 := addCountryRecommendation r4 country "Australia" ["ETA or visitor visa required"]
  addSchengenRecommendation r5 country

/-- `checkAccessibility(locationInfo, accessibility)`. -/
def checkAccessibility (loc : ParsedLocation) (accessibility : Accessibility) : Accessibility :=
  let enhanced :=
    match loc.city with
    | some city =>
        if (cityLookup city).isSome then
          { accessibility with
            hasAirport := true
            transportOptions :=
              accessibility.transportOptions ++ ["International airport available"] }
        else accessibility
    | none => accessibility
  if loc.country = "Turkey" then
    { enhanced with transportOptions :=
        enhanced.transportOptions ++ ["Domestic flights", "Bus", "Car rental"] }
  else if ["France", "Germany", "Italy", "Spain"].contains loc.country then
    { enhanced with transportOptions :=
        enhanced.transportOptions ++ ["High-speed rail", "Regional flights", "Car rental"] }
  else if ["Thailand", "Malaysia", "Singapore"].contains loc.country then
    { enhanced with transportOptions :=
        enhanced.transportOptions ++ ["Regional flights", "Bus", "Ferry"] }
  else enhanced

/-- The verdict after the safe/advisory table branch of `verifyDestination`
(the three-way `if (advisoryInfo) ... else if (safeInfo) ... else ...`). -/
def verdictFromTables (locationInfo : ParsedLocation) : DestinationVerdict :=
  let base : DestinationVerdict :=
    { isAccessible := true, isSafe := true, country := locationInfo.country
      visaRequired := false, warnings := [], recommendations := []
      travelAdvisory := none
      accessibility := { hasAirport := false, transportOptions := [], visaFree := false } }
  match tableLookup advisoryDestinations locationInfo.country with
  | some advisoryInfo =>
      { base with
        isSafe := advisoryInfo.safe
        isAccessible := advisoryInfo.safe
        visaRequired := advisoryInfo.visaRequired
        warnings := advisoryInfo.warnings
        travelAdvisory := some (if advisoryInfo.safe then "caution" else "do-not-travel") }
  | none =>
    match tableLookup safeDestinations locationInfo.country with
    | some safeInfo =>
        { base with
          isSafe := safeInfo.safe
          visaRequired := safeInfo.visaRequired
          warnings := safeInfo.warnings
          accessibility := { base.accessibility with visaFree := !safeInfo.visaRequired } }
    | none =>
        { base with
          warnings := base.warnings ++ ["Limited information available for this destination"]
          recommendations :=
            base.recommendations ++ ["Please verify current travel conditions"]
          visaRequired := true }

/-- The city-specific step of `verifyDestination`: mark the airport and
recommend it when the parsed city is known. -/
def applyCityAirportInfo (locationInfo : ParsedLocation) (result : DestinationVerdict) :
    DestinationVerdict :=
  match locationInfo.city with
  | some city =>
      match cityLookup city with
      | some cityData =>
          let withAirport :=
            { result with
              accessibility :=
                { result.accessibility with
                  hasAirport := true
                  transportOptions :=
                    result.accessibility.transportOptions ++ ["Air travel available"] } }
          { withAirport with
            recommendations :=
              withAirport.recommendations ++ ["Main airport: " ++ cityData.2] }
      | none => result
  | none => result

/-- `verifyDestination(destination)`: classify a destination string.
The JS body cannot throw on the pure data paths modelled here, so the
outer `try/catch` collapses to the `try` branch. -/
def verifyDestination (destination : String) : DestinationVerdict :=
  let locationInfo := parseDestination destination
  let afterTables := verdictFromTables locationInfo
  let afterCity := applyCityAirportInfo locationInfo afterTables
  let afterTurkish := addTurkishTravelerRecommendations afterCity locationInfo.country
  { afterTurkish with
    accessibility := checkAccessibility locationInfo afterTurkish.accessibility }

/-- `getSafeAlternatives(originalDestination)`: static substitution table
for known unsafe countries (only the alternative names are relevant to the
orchestrator's rejection payload). -/
def getSafeAlternatives (originalDestination : String) : List String :=
  let originalInfo := parseDestination originalDestination
  if (tableLookup advisoryDestinations originalInfo.country).isSome then
    if originalInfo.country = "Syria" then ["Jordan", "Turkey", "Cyprus"]
    else if originalInfo.country = "Iraq" then ["Jordan", "Oman", "United Arab Emirates"]
    else if originalInfo.country = "Afghanistan" then ["Uzbekistan", "Kazakhstan", "Kyrgyzstan"]
    else if originalInfo.country = "Venezuela" then ["Colombia", "Peru", "Costa Rica"]
    else if originalInfo.country = "Myanmar" then ["Thailand", "Vietnam", "Malaysia"]
    else []
  else []

/-! ## Generated plans (the AI's validated output shape) -/

/-- `breakdown` of one route. -/
structure Breakdown where
  flights : ℚ
  hotels : ℚ
  activities : ℚ
  deriving DecidableEq, Repr

/-- One day of a route's `dailyPlan`. -/
structure DayPlan where
  day : ℕ
  location : String
  activities : List String
  accommodation : String
  estimatedCost : ℚ
  deriving DecidableEq, Repr

/-- One route option of a generated plan. -/
structure Route where
  id : ℕ
  name : String
  totalCost : ℚ
  breakdown : Breakdown
  dailyPlan : List DayPlan
  deriving DecidableEq, Repr

/-- One `surpriseAlternatives` entry. -/
structure Alternative where
  destination : String
  reason : String
  estimatedCost : ℚ
  highlights : List String
  deriving DecidableEq, Repr

/-- `timingAdvice` block. -/
structure TimingAdvice where
  bestTimeToVisit : String
  weatherInfo : String
  seasonalTips : List String
  deriving DecidableEq, Repr

/-- A structurally valid generated travel plan. -/
structure TravelPlanGen where
  mainRoutes : List Route
  surpriseAlternatives : List Alternative
  localTips : List String
  timingAdvice : TimingAdvice
  deriving DecidableEq, Repr

/-! ## Price sanity validator (`src/utils/priceValidation.js`) -/

/-- A `{ min, max }` price band. -/
structure Band where
  min : ℚ
  max : ℚ
  deriving DecidableEq, Repr

/-- Flight bands. -/
structure FlightBands where
  domestic : Band
  international : Band
  luxury : Band
  deriving DecidableEq, Repr

/-- Hotel bands. -/
structure HotelBands where
  budget : Band
  midRange : Band
  luxury : Band
  deriving DecidableEq, Repr

/-- Activity bands. -/
structure ActivityBands where
  perDay : Band
  perActivity : Band
  deriving DecidableEq, Repr

/-- Food bands. -/
structure FoodBands where
  perDay : Band
  budget : Band
  midRange : Band
  luxury : Band
  deriving DecidableEq, Repr

/-- Transport bands. -/
structure TransportBands where
  perDay : Band
  perKm : Band
  deriving DecidableEq, Repr

/-- The full `priceBoundaries` table. -/
structure Boundaries where
  flights : FlightBands
  hotels : HotelBands
  activities : ActivityBands
  food : FoodBands
  transport : TransportBands
  deriving DecidableEq, Repr

/-- The static `priceBoundaries` table (USD). -/
def priceBoundaries : Boundaries :=
  { flights := { domestic := ⟨50, 1000⟩, international := ⟨200, 5000⟩, luxury := ⟨1000, 15000⟩ }
    hotels := { budget := ⟨15, 100⟩, midRange := ⟨50, 300⟩, luxury := ⟨200, 2000⟩ }
    activities := { perDay := ⟨10, 500⟩, perActivity := ⟨5, 300⟩ }
    food := { perDay := ⟨10, 200⟩, budget := ⟨10, 50⟩, midRange := ⟨30, 100⟩,
              luxury := ⟨80, 200⟩ }
    transport := { perDay := ⟨5, 100⟩, perKm := ⟨1/10, 5⟩ } }

/-- `countryMultipliers` table, in source order. -/
def countryMultipliers : List (String × ℚ) :=
  [ ("USA", 12/10), ("Canada", 11/10), ("UK", 115/100), ("Germany", 11/10),
    ("France", 11/10), ("Italy", 1), ("Spain", 9/10), ("Japan", 13/10),
    ("Australia", 12/10), ("Netherlands", 11/10), ("Switzerland", 15/10),
    ("Turkey", 6/10), ("Thailand", 4/10), ("Vietnam", 3/10), ("India", 3/10),
    ("Mexico", 5/10), ("Egypt", 4/10), ("Morocco", 4/10), ("Indonesia", 4/10),
    ("Philippines", 4/10), ("Malaysia", 5/10), ("Brazil", 6/10) ]

/-- `this.countryMultipliers[destination] || this.countryMultipliers.default`. -/
def countryMultiplierOf (country : String) : ℚ :=
  ((countryMultipliers.find? (fun e => e.1 = country)).map Prod.snd).getD (8/10)

/-- `getTravelStyleMultiplier(travelStyle)` with `|| 1.0` default. -/
def getTravelStyleMultiplier (travelStyle : String) : ℚ :=
  if travelStyle = "budget" then 7/10
  else if travelStyle = "mid-range" then 1
  else if travelStyle = "luxury" then 18/10
  else 1

/-- Scale one band by a factor (`min *= k; max *= k`). -/
def scaleBand (b : Band) (k : ℚ) : Band :=
  ⟨b.min * k, b.max * k⟩

/-- `adjustBoundariesForCountry(countryMultiplier, styleMultiplier)`:
every band of every category is scaled by `countryMultiplier * styleMultiplier`. -/
def adjustBoundariesForCountry (countryMultiplier styleMultiplier : ℚ) : Boundaries :=
  let k := countryMultiplier * styleMultiplier
  { flights := { domestic := scaleBand priceBoundaries.flights.domestic k
                 international := scaleBand priceBoundaries.flights.international k
                 luxury := scaleBand priceBoundaries.flights.luxury k }
    hotels := { budget := scaleBand priceBoundaries.hotels.budget k
                midRange := scaleBand priceBoundaries.hotels.midRange k
                luxury := scaleBand priceBoundaries.hotels.luxury k }
    activities := { perDay := scaleBand priceBoundaries.activities.perDay k
                    perActivity := scaleBand priceBoundaries.activities.perActivity k }
    food := { perDay := scaleBand priceBoundaries.food.perDay k
              budget := scaleBand priceBoundaries.food.budget k
              midRange := scaleBand priceBoundaries.food.midRange k
              luxury := scaleBand priceBoundaries.food.luxury k }
    transport := { perDay := scaleBand priceBoundaries.transport.perDay k
                   perKm := scaleBand priceBoundaries.transport.perKm k } }

/-- `extractCountry(destination)` from `priceValidation.js` (its own
keyword table, distinct from the safety gate's). -/
def extractCountry (destination : String) : String :=
  let countryKeywords : List (String × List String) :=
    [ ("Turkey", ["turkey", "istanbul", "ankara", "antalya", "cappadocia"]),
      ("Thailand", ["thailand", "bangkok", "phuket", "chiang mai"]),
      ("USA", ["usa", "america", "new york", "los angeles", "san francisco"]),
      ("France", ["france", "paris", "lyon", "marseille"]),
      ("Italy", ["italy", "rome", "milan", "venice", "florence"]),
      ("Spain", ["spain", "madrid", "barcelona", "seville"]),
      ("Germany", ["germany", "berlin", "munich", "hamburg"]),
      ("UK", ["uk", "england", "london", "manchester", "edinburgh"]),
      ("Japan", ["japan", "tokyo", "osaka", "kyoto"]) ]
  let lowerDestination := jsToLower destination
  match countryKeywords.find?
      (fun e => e.2.any (fun keyword => strContainsSub lowerDestination keyword)) with
  | some e => e.1
  | none => "default"

/-- Outcome of one component check / one route validation:
`{ isValid, errors, warnings }`. -/
structure CheckResult where
  isValid : Bool
  errors : List String
  warnings : List String
  deriving DecidableEq, Repr

/-- `validateFlightPrices(flightCost, travelers, boundaries)`: below the
international minimum warns, above the maximum errors (invalidates),
within the top 20% warns. -/
def validateFlightPrices (flightCost travelers : ℚ) (boundaries : Boundaries) : CheckResult :=
  let costPerPerson := flightCost / travelers
  let band := boundaries.flights.international
  if costPerPerson < band.min then
    { isValid := true, errors := []
      warnings := ["Flight price (" ++ toString costPerPerson ++
        " per person) seems unusually low"] }
  else if costPerPerson > band.max then
    { isValid := false
      errors := ["Flight price (" ++ toString costPerPerson ++
        " per person) seems unusually high"]
      warnings := [] }
  else if costPerPerson > band.max * (8/10) then
    { isValid := true, errors := []
      warnings := ["Flight price (" ++ toString costPerPerson ++
        " per person) is quite expensive"] }
  else
    { isValid := true, errors := [], warnings := [] }

/-- The hotel band selected for a travel style
(`budget`/`luxury`/everything else → `midRange`). -/
def hotelBandFor (boundaries : Boundaries) (travelStyle : String) : Band :=
  if travelStyle = "budget" then boundaries.hotels.budget
  else if travelStyle = "luxury" then boundaries.hotels.luxury
  else boundaries.hotels.midRange

/-- `validateHotelPrices(hotelCost, duration, travelers, boundaries, travelStyle)`. -/
def validateHotelPrices (hotelCost duration : ℚ) (boundaries : Boundaries)
    (travelStyle : String) : CheckResult :=
  let costPerNight := hotelCost / duration
  let expectedRange := hotelBandFor boundaries travelStyle
  if costPerNight < expectedRange.min then
    { isValid := true, errors := []
      warnings := ["Hotel price (" ++ toString costPerNight ++
        " per night) seems low for " ++ travelStyle ++ " category"] }
  else if costPerNight > expectedRange.max then
    { isValid := false
      errors := ["Hotel price (" ++ toString costPerNight ++
        " per night) exceeds " ++ travelStyle ++ " category limits"]
      warnings := [] }
  else if costPerNight > expectedRange.max * (8/10) then
    { isValid := true, errors := []
      warnings := ["Hotel price (" ++ toString costPerNight ++
        " per night) is at the high end for " ++ travelStyle] }
  else
    { isValid := true, errors := [], warnings := [] }

/-- `validateActivityPrices(activityCost, duration, travelers, boundaries)`:
warnings only, never invalidates. -/
def validateActivityPrices (activityCost duration : ℚ) (boundaries : Boundaries) : CheckResult :=
  let costPerDay := activityCost / duration
  if costPerDay > boundaries.activities.perDay.max then
    { isValid := true, errors := []
      warnings := ["Activity cost (" ++ toString costPerDay ++ " per day) seems high"] }
  else if costPerDay < boundaries.activities.perDay.min then
    { isValid := true, errors := []
      warnings := ["Activity cost (" ++ toString costPerDay ++
        " per day) seems low - consider adding more activities"] }
  else
    { isValid := true, errors := [], warnings := [] }

/-- The budget-excess warning emitted when a route exceeds the per-traveler
budget by at most 20%. -/
def slightlyExceedsMsg (totalCost : ℚ) : String :=
  "Route total cost (" ++ toString totalCost ++ ") slightly exceeds budget"

/-- The budget-excess error emitted when a route exceeds the per-traveler
budget by more than 20%. -/
def exceedsBudgetMsg (totalCost : ℚ) : String :=
  "Route total cost (" ++ toString totalCost ++ ") exceeds budget by more than 20%"

/-- `validateRoute(route, budgetUSD, duration, travelers, countryMultiplier,
travelStyle = 'mid-range')`.  Flight and hotel checks can invalidate the
route; activity checks only warn; the route is also invalidated when its
total cost exceeds the per-traveler budget by more than 20%, and a
suspicious-low-cost warning fires below half of the minimum plausible cost. -/
def validateRoute (route : Route) (budgetUSD duration travelers countryMultiplier : ℚ)
    (travelStyleArg : Option String) : CheckResult :=
  let travelStyle := travelStyleArg.getD "mid-range"
  let styleMultiplier := getTravelStyleMultiplier travelStyle
  let boundaries := adjustBoundariesForCountry countryMultiplier styleMultiplier
  let flightValidation := validateFlightPrices route.breakdown.flights travelers boundaries
  let hotelValidation :=
    validateHotelPrices route.breakdown.hotels duration boundaries travelStyle
  let activityValidation :=
    validateActivityPrices route.breakdown.activities duration boundaries
  let budgetPerPerson := budgetUSD / travelers
  let overBudget : Bool := decide (route.totalCost > budgetPerPerson * (12/10))
  let slightlyOver : Bool :=
    !overBudget && decide (route.totalCost > budgetPerPerson)
  let minReasonableCost :=
    (boundaries.flights.international.min + boundaries.hotels.budget.min * duration +
      boundaries.activities.perDay.min * duration) * travelers
  let suspiciouslyLow : Bool := decide (route.totalCost < minReasonableCost * (1/2))
  { isValid := flightValidation.isValid && hotelValidation.isValid && !overBudget
    errors :=
      flightValidation.errors ++ hotelValidation.errors ++
        (if overBudget then [exceedsBudgetMsg route.totalCost] else [])
    warnings :=
      flightValidation.warnings ++ hotelValidation.warnings ++ activityValidation.warnings ++
        (if slightlyOver then [slightlyExceedsMsg route.totalCost] else []) ++
        (if suspiciouslyLow then
          ["Route cost seems unusually low, please verify pricing accuracy"] else []) }

/-- `validateBudgetFeasibility(routes, budgetUSD, originalCurrency)`:
warnings about the cheapest route's budget utilization.  The
interpolated percentages are printed with `toFixed(1)` in JS; the model
interpolates the exact rational (no claim depends on these strings). -/
def validateBudgetFeasibility (routes : List Route) (budgetUSD : ℚ) : List String :=
  match routes with
  | [] => []
  | r :: rest =>
    let cheapestRoute := rest.foldl (fun m route =>
      if route.totalCost < m.totalCost then route else m) r
    let budgetUtilization := cheapestRoute.totalCost / budgetUSD * 100
    if budgetUtilization > 100 then
      ["Even the cheapest option exceeds budget by " ++
        toString (budgetUtilization - 100) ++ "%"]
    else if budgetUtilization > 90 then
      ["Budget utilization is " ++ toString budgetUtilization ++ "% - very tight budget"]
    else if budgetUtilization < 60 then
      ["Budget utilization is only " ++ toString budgetUtilization ++
        "% - consider upgrading experiences"]
    else []

/-- The four categories scanned by the outlier detector. -/
inductive Category where
  | totalCost
  | flights
  | hotels
  | activities
  deriving DecidableEq, Repr

/-- The per-category value of a route. -/
def categoryValue (c : Category) (r : Route) : ℚ :=
  match c with
  | .totalCost => r.totalCost
  | .flights => r.breakdown.flights
  | .hotels => r.breakdown.hotels
  | .activities => r.breakdown.activities

/-- Mean and population variance (`calculateStatistics(values)` divides by
`values.length`, i.e. population — not sample — statistics; the JS
`stdDev = sqrt(variance)` is only ever used squared, see the header). -/
structure Stats where
  mean : ℚ
  variance : ℚ
  deriving DecidableEq, Repr

/-- `calculateStatistics(values)`. -/
def calculateStatistics (values : List ℚ) : Stats :=
  let mean := values.sum / (values.length : ℚ)
  let variance := (values.map (fun v => (v - mean)^2)).sum / (values.length : ℚ)
  { mean := mean, variance := variance }

/-- One detected outlier.  `zScoreSq` is the square of the JS `zScore`
(`zScore > 2 ↔ zScoreSq > 4` whenever the standard deviation is positive,
and both comparisons are false at zero variance). -/
structure Outlier where
  routeId : ℕ
  category : Category
  value : ℚ
  zScoreSq : ℚ
  isHigh : Bool
  deriving DecidableEq, Repr

/-- Outliers of one category across all routes of a plan. -/
def detectCategoryOutliers (routes : List Route) (c : Category) : List Outlier :=
  let values := routes.map (categoryValue c)
  let stats := calculateStatistics values
  routes.filterMap (fun route =>
    let value := categoryValue c route
    let zScoreSq := (value - stats.mean)^2 / stats.variance
    if zScoreSq > 4 then
      some { routeId := route.id, category := c, value := value,
             zScoreSq := zScoreSq, isHigh := decide (value > stats.mean) }
    else none)

/-- `detectPriceOutliers(routes)` result. -/
structure Detection where
  warnings : List String
  outliers : List Outlier
  deriving DecidableEq, Repr

/-- `detectPriceOutliers(routes)`: skip entirely below 2 routes, else scan
the four categories in order, flagging any route more than 2 population
standard deviations from the category mean. -/
def detectPriceOutliers (routes : List Route) : Detection :=
  if routes.length < 2 then { warnings := [], outliers := [] }
  else
    let outliers :=
      [Category.totalCost, Category.flights, Category.hotels, Category.activities].flatMap
        (detectCategoryOutliers routes)
    { warnings :=
        if outliers.length > 0 then
          ["Found " ++ toString outliers.length ++
            " price outliers that may need verification"]
        else []
      outliers := outliers }

/-- `generateAdjustedPlan(originalPlan, budgetUSD, duration, travelers,
countryMultiplier)`: scale over-budget routes down with a 10% buffer,
rounding each component. -/
def generateAdjustedPlan (originalPlan : TravelPlanGen)
    (budgetUSD duration travelers countryMultiplier : ℚ) : TravelPlanGen :=
  let budgetPerPerson := budgetUSD / travelers
  { originalPlan with
    mainRoutes := originalPlan.mainRoutes.map (fun route =>
      if route.totalCost > budgetPerPerson then
        let adjustmentFactor := budgetPerPerson / route.totalCost * (9/10)
        let flights := (jsRound (route.breakdown.flights * adjustmentFactor) : ℚ)
        let hotels := (jsRound (route.breakdown.hotels * adjustmentFactor) : ℚ)
        let activities := (jsRound (route.breakdown.activities * adjustmentFactor) : ℚ)
        { route with
          breakdown := { flights := flights, hotels := hotels, activities := activities }
          totalCost := flights + hotels + activities
          name := route.name ++ " (Budget Adjusted)" }
      else route) }

/-- `request.travelers || 1` (both `undefined` and `0` fall back to 1). -/
def jsTravelers (r : PlanRequest) : ℕ :=
  match r.travelers with
  | none => 1
  | some 0 => 1
  | some n => n

/-- `request.preferences?.travelStyle` (absent when either level is absent). -/
def requestStyleArg (r : PlanRequest) : Option String :=
  r.preferences.bind Preferences.travelStyle

/-- The trip duration as a rational, as used inside `validateTravelPlan`. -/
def requestDurationQ (r : PlanRequest) : ℚ :=
  (calculateDuration r.startDate r.endDate : ℕ)

/-- The traveler count as a rational, as used inside `validateTravelPlan`. -/
def requestTravelersQ (r : PlanRequest) : ℚ :=
  (jsTravelers r : ℕ)

/-- The scaled boundaries `validateRoute` computes for a request's country
multiplier and (defaulted) travel style. -/
def requestBoundaries (r : PlanRequest) : Boundaries :=
  adjustBoundariesForCountry (countryMultiplierOf (extractCountry r.destination))
    (getTravelStyleMultiplier ((requestStyleArg r).getD "mid-range"))

/-- The overall validation report (`validationResults`). -/
structure ValidationResults where
  isValid : Bool
  warnings : List String
  errors : List String
  adjustedPlan : Option TravelPlanGen
  routeChecks : List (ℕ × CheckResult)
  budgetWarnings : List String
  outlierDetection : Detection
  errMsg : Option String
  deriving DecidableEq, Repr

/-- The report returned by `validateTravelPlan`'s top-level `catch` branch. -/
def validationUnavailable (msg : String) : ValidationResults :=
  { isValid := false
    warnings := []
    errors := ["Price validation system temporarily unavailable"]
    adjustedPlan := none
    routeChecks := []
    budgetWarnings := []
    outlierDetection := { warnings := [], outliers := [] }
    errMsg := some msg }

/-- The body of `validateTravelPlan` after the budget has been converted
to USD: per-route checks, budget feasibility, outlier detection, and the
optional adjusted plan. -/
def validateTravelPlanCore (budgetInUSD : ℚ) (travelPlan : TravelPlanGen)
    (request : PlanRequest) : ValidationResults :=
  let duration : ℚ := requestDurationQ request
  let travelers : ℚ := requestTravelersQ request
  let destination := extractCountry request.destination
  let multiplier := countryMultiplierOf destination
  let travelStyleArg := requestStyleArg request
  let routeChecks := travelPlan.mainRoutes.map (fun route =>
    (route.id, validateRoute route budgetInUSD duration travelers multiplier travelStyleArg))
  let isValid := routeChecks.all (fun rc => rc.2.isValid)
  let errors := routeChecks.flatMap (fun rc => if rc.2.isValid then [] else rc.2.errors)
  let routeWarnings := routeChecks.flatMap (fun rc => rc.2.warnings)
  let budgetWarnings := validateBudgetFeasibility travelPlan.mainRoutes budgetInUSD
  let outlierDetection := detectPriceOutliers travelPlan.mainRoutes
  let warnings := routeWarnings ++ budgetWarnings ++ outlierDetection.warnings
  let adjustedPlan :=
    if errors.length > 0 || warnings.length > 3 then
      some (generateAdjustedPlan travelPlan budgetInUSD duration travelers multiplier)
    else none
  { isValid := isValid
    warnings := warnings
    errors := errors
    adjustedPlan := adjustedPlan
    routeChecks := routeChecks
    budgetWarnings := budgetWarnings
    outlierDetection := outlierDetection
    errMsg := none }

/-- The currency-conversion collaborator: `convertCurrency(amount, from,
to)` either returns the converted amount or throws (modelled as `Except`). -/
def ConvertFn : Type := ℚ → String → String → Except String ℚ

/-- `validateTravelPlan(travelPlan, request)`: convert the budget to USD
when needed (`convertCurrency` is the only statement in the `try` body
that can throw), then run the pure validation; a thrown conversion error
is caught by the top-level `catch`, which returns the
"validation unavailable" report. -/
def validateTravelPlan (convert : ConvertFn) (travelPlan : TravelPlanGen)
    (request : PlanRequest) : ValidationResults :=
  let budgetResult : Except String ℚ :=
    if request.currency ≠ "USD" then convert request.budget request.currency "USD"
    else .ok request.budget
  match budgetResult with
  | .ok budgetInUSD => validateTravelPlanCore budgetInUSD travelPlan request
  | .error msg => validationUnavailable msg

/-! ## Gemini response structural validation (`src/services/geminiService.js`)

`parseGeminiResponse` first extracts and JSON-decodes a payload from the raw
response text; the claims range over *parsed* responses, so the model
starts from the decoded JSON value (fields are `Option`s: `none` models an
absent property). -/

/-- A route as decoded from JSON, before structural validation
(`route[field] === undefined` is modelled by `none`). -/
structure RouteJson where
  id : Option ℚ
  name : Option String
  totalCost : Option ℚ
  breakdown : Option Breakdown
  dailyPlan : Option (List DayPlan)
  deriving DecidableEq, Repr

/-- A whole plan as decoded from JSON, before structural validation. -/
structure PlanJson where
  mainRoutes : Option (List RouteJson)
  surpriseAlternatives : Option (List Alternative)
  localTips : Option (List String)
  timingAdvice : Option TimingAdvice
  deriving DecidableEq, Repr

/-- The per-route missing-field list
(`['id','name','totalCost','breakdown','dailyPlan'].filter(f => route[f] === undefined)`). -/
def missingRouteFields (route : RouteJson) : List String :=
  (if route.id.isNone then ["id"] else []) ++
  (if route.name.isNone then ["name"] else []) ++
  (if route.totalCost.isNone then ["totalCost"] else []) ++
  (if route.breakdown.isNone then ["breakdown"] else []) ++
  (if route.dailyPlan.isNone then ["dailyPlan"] else [])

/-- The error message thrown for route `index` (0-based) with missing
fields `missing`: `` `Route ${index + 1} missing fields: ${missing.join(', ')}` ``. -/
def routeErrorMsg (index : ℕ) (missing : List String) : String :=
  "Route " ++ toString (index + 1) ++ " missing fields: " ++ String.intercalate ", " missing

/-- The `forEach` loop over routes: throw at the first route with a
missing required field. -/
def checkRoutes : ℕ → List RouteJson → Except String Unit
  | _, [] => .ok ()
  | index, route :: rest =>
    let routeMissing := missingRouteFields route
    if routeMissing.isEmpty then checkRoutes (index + 1) rest
    else .error (routeErrorMsg index routeMissing)

/-- The top-level missing-field list
(`['mainRoutes','surpriseAlternatives','localTips','timingAdvice'].filter(f => !plan[f])`). -/
def missingTopFields (plan : PlanJson) : List String :=
  (if plan.mainRoutes.isNone then ["mainRoutes"] else []) ++
  (if plan.surpriseAlternatives.isNone then ["surpriseAlternatives"] else []) ++
  (if plan.localTips.isNone then ["localTips"] else []) ++
  (if plan.timingAdvice.isNone then ["timingAdvice"] else [])

/-- `GeminiService.validateTravelPlan(plan)` (the *structural* validator —
distinct from the price validator of the same JS name): all four
top-level fields present, `mainRoutes` a non-empty array, every route with
its five required fields; the first violation throws. -/
def validateParsedPlan (plan : PlanJson) : Except String Unit :=
  let missing := missingTopFields plan
  if !missing.isEmpty then
    .error ("Missing required fields: " ++ String.intercalate ", " missing)
  else
    match plan.mainRoutes with
    | none => .error "At least one main route is required"
    | some routes =>
      if routes.isEmpty then .error "At least one main route is required"
      else checkRoutes 0 routes

/-- `parseGeminiResponse` from the decoded JSON onward: run the structural
validator inside the `try`; *any* error is caught and replaced by the
generic `'Invalid response format from AI service'` error. -/
def parseGeminiResponseFrom (plan : PlanJson) : Except String PlanJson :=
  match validateParsedPlan plan with
  | .ok _ => .ok plan
  | .error _ => .error "Invalid response format from AI service"

/-- `handleGeminiError(error)`: classify an error message thrown anywhere
inside `generateTravelPlan`. -/
def handleGeminiError (msg : String) : String :=
  if strContainsSub msg "quota" then "GEMINI_QUOTA_EXCEEDED"
  else if strContainsSub msg "safety" then "CONTENT_FILTERED"
  else if strContainsSub msg "rate limit" then "RATE_LIMIT_EXCEEDED"
  else "GEMINI_API_ERROR"

/-- What the caller of `GeminiService.generateTravelPlan` observes for the
parsing stage: a parse/validation error is re-thrown through
`handleGeminiError`. -/
def generateObservedError (plan : PlanJson) : Except String PlanJson :=
  match parseGeminiResponseFrom plan with
  | .ok p => .ok p
  | .error msg => .error (handleGeminiError msg)

/-! ## Plan orchestrator (`src/controllers/userController.js`) -/

/-- The persisted plan record as the background continuation leaves it. -/
structure PlanRecord where
  planId : String
  status : String
  mainRoutes : List Route
  surpriseAlternatives : List Alternative
  localTips : List String
  timingAdvice : Option TimingAdvice
  priceValidationIsValid : Option Bool
  errorMessage : Option String
  deriving DecidableEq, Repr

/-- `processTravelPlan(planId, planRequest, userId, destinationInfo)` —
the background continuation.  The Gemini call is a collaborator; its
outcome is passed in as `aiOutcome` (a structurally valid plan, or the
classified error thrown by `geminiService.generateTravelPlan`).  On
success the validator runs and the warnings/recommendations are folded
into `localTips`; on failure the record is marked `failed`. -/
def processTravelPlan (planId : String) (planRequest : PlanRequest)
    (destinationInfo : DestinationVerdict) (aiOutcome : Except String TravelPlanGen)
    (convert : ConvertFn) : PlanRecord :=
  match aiOutcome with
  | .error msg =>
      { planId := planId, status := "failed", mainRoutes := [],
        surpriseAlternatives := [], localTips := [], timingAdvice := none,
        priceValidationIsValid := none, errorMessage := some msg }
  | .ok aiResponse =>
      let validation := validateTravelPlan convert aiResponse planRequest
      let tips0 := aiResponse.localTips
      let tips1 :=
        if validation.warnings.length > 0 then
          tips0 ++ (validation.warnings.take 3).map
            (fun warning => "⚠️ Price Alert: " ++ warning)
        else tips0
      let tips2 :=
        if destinationInfo.warnings.length > 0 then
          tips1 ++ destinationInfo.warnings.map
            (fun warning => "🚨 Travel Advisory: " ++ warning)
        else tips1
      let tips3 :=
        if destinationInfo.recommendations.length > 0 then
          tips2 ++ (destinationInfo.recommendations.take 2).map
            (fun rec => "📋 Travel Info: " ++ rec)
        else tips2
      { planId := planId, status := "completed",
        mainRoutes := aiResponse.mainRoutes,
        surpriseAlternatives := aiResponse.surpriseAlternatives,
        localTips := tips3,
        timingAdvice := some aiResponse.timingAdvice,
        priceValidationIsValid := some validation.isValid,
        errorMessage := none }

/-- The synchronous response of `generateTravelPlan` (the
`submitPlanRequest` surface): either a `400` rejection with the verdict's
warnings and alternatives, or a `202` acknowledgment; `createdPlans` lists
every `TravelPlan` record the call ever persists (the background
continuation runs only on the acknowledgment path). -/
structure SubmitResult where
  rejected : Bool
  rejectionWarnings : List String
  rejectionAdvisory : Option String
  safeAlternatives : List String
  ackPlanId : Option String
  estimatedTime : Option ℕ
  createdPlans : List PlanRecord
  deriving DecidableEq, Repr

/-- `generateTravelPlan(req, res)` after request-shape validation: run the
safety gate synchronously; reject without creating any record when the
verdict is inaccessible or unsafe; otherwise acknowledge and run the
background continuation. -/
def generateTravelPlan (planId : String) (planRequest : PlanRequest)
    (aiOutcome : Except String TravelPlanGen) (convert : ConvertFn) : SubmitResult :=
  let duration := calculateDuration planRequest.startDate planRequest.endDate
  let estimatedTime :=
    estimateProcessingTime planRequest.destination duration (jsTravelers planRequest)
  let destinationInfo := verifyDestination planRequest.destination
  if !destinationInfo.isAccessible || !destinationInfo.isSafe then
    { rejected := true
      rejectionWarnings := destinationInfo.warnings
      rejectionAdvisory := destinationInfo.travelAdvisory
      safeAlternatives := getSafeAlternatives planRequest.destination
      ackPlanId := none
      estimatedTime := none
      createdPlans := [] }
  else
    { rejected := false
      rejectionWarnings := []
      rejectionAdvisory := none
      safeAlternatives := []
      ackPlanId := some planId
      estimatedTime := some estimatedTime
      createdPlans := [processTravelPlan planId planRequest destinationInfo aiOutcome convert] }

/-! ## Theorems -/

/-- C7: for every destination string, duration and traveler count, the
estimated processing time is base 10 s, plus `min(2·duration, 20)`, plus
`min(2·travelers, 10)`, plus 10 s when the lower-cased destination contains
a complex keyword, capped at 45 s — and therefore always lies in `[10, 45]`. -/
theorem estimateProcessingTime_correct (destination : String) (duration travelers : ℕ) :
    estimateProcessingTime destination duration travelers =
      min (10 + min (duration * 2) 20 + min (travelers * 2) 10 +
        (if isComplexDestination destination then 10 else 0)) 45 ∧
    10 ≤ estimateProcessingTime destination duration travelers ∧
    estimateProcessingTime destination duration travelers ≤ 45 := by
  have hmain : estimateProcessingTime destination duration travelers =
      min (10 + min (duration * 2) 20 + min (travelers * 2) 10 +
        (if isComplexDestination destination then 10 else 0)) 45 := by
    unfold estimateProcessingTime isComplexDestination
    by_cases h : (["asia", "africa", "multiple", "tour"].any
        (fun keyword => strContainsSub (jsToLower destination) keyword)) = true
    · simp only [h, if_true]
    · simp only [Bool.not_eq_true] at h
      simp only [h, Bool.false_eq_true, if_false]
      omega
  refine ⟨hmain, ?_, ?_⟩ <;> rw [hmain] <;> by_cases h : isComplexDestination destination <;>
    simp only [h, if_true, Bool.false_eq_true, if_false] <;> omega

/-- C10: when the usage metadata object is present but both token counts
are absent or zero, the derived credit cost is `0`; the default of `1`
applies only when the metadata object itself is absent. -/
theorem calculateCreditsUsed_zero_tokens (u : UsageMetadata)
    (hp : u.promptTokenCount.getD 0 = 0) (hc : u.candidatesTokenCount.getD 0 = 0) :
    calculateCreditsUsed (some u) = 0 ∧ calculateCreditsUsed none = 1 := by
  refine ⟨?_, rfl⟩
  simp [calculateCreditsUsed, hp, hc]

/-- Witness for C10 at metadata with `promptTokenCount = 0` and absent
`candidatesTokenCount`. -/
theorem calculateCreditsUsed_zero_tokens_witness :
    calculateCreditsUsed (some ⟨some 0, none⟩) = 0 ∧ calculateCreditsUsed none = 1 :=
  calculateCreditsUsed_zero_tokens ⟨some 0, none⟩ rfl rfl

/-- C3 (amended): when the currency is not USD and the conversion
collaborator throws, `validateTravelPlan` does *not* proceed with the
unconverted budget — the top-level `catch` returns the "validation
unavailable" report with `isValid = false`, a single generic error, and no
warnings. -/
theorem validateTravelPlan_conversion_failure (convert : ConvertFn)
    (travelPlan : TravelPlanGen) (request : PlanRequest) (msg : String)
    (hcur : request.currency ≠ "USD")
    (hfail : convert request.budget request.currency "USD" = .error msg) :
    validateTravelPlan convert travelPlan request = validationUnavailable msg := by
  unfold validateTravelPlan
  rw [if_pos hcur, hfail]

/-- The always-failing conversion collaborator used in the C3 scenario. -/
def failingConvert : ConvertFn := fun _ _ _ => .error "Unable to convert EUR to USD"

/-- Concrete plan for the C3 scenario. -/
def c3plan : TravelPlanGen :=
  { mainRoutes := [⟨1, "Paris Getaway", 900, ⟨400, 300, 200⟩, []⟩]
    surpriseAlternatives := []
    localTips := []
    timingAdvice := ⟨"Spring", "Mild", []⟩ }

/-- Concrete non-USD request for the C3 scenario. -/
def c3request : PlanRequest :=
  { destination := "Paris, France", startDate := 0, endDate := 5, budget := 1000
    currency := "EUR", travelers := some 1, preferences := none, language := none }

/-- Counterexample to C3 as stated: with a throwing conversion
collaborator, `validateTravelPlan` returns `isValid = false` and adds *no*
warning — the conversion failure by itself fails the validation. -/
theorem validateTravelPlan_conversion_failure_counterexample :
    (validateTravelPlan failingConvert c3plan c3request).isValid = false ∧
    (validateTravelPlan failingConvert c3plan c3request).warnings = [] ∧
    (validateTravelPlan failingConvert c3plan c3request).errors =
      ["Price validation system temporarily unavailable"] := by
  refine ⟨rfl, rfl, rfl⟩

/-- Witness for the amended C3 theorem at the concrete failing collaborator. -/
theorem validateTravelPlan_conversion_failure_witness :
    validateTravelPlan failingConvert c3plan c3request =
      validationUnavailable "Unable to convert EUR to USD" :=
  validateTravelPlan_conversion_failure failingConvert c3plan c3request
    "Unable to convert EUR to USD" (by decide) rfl

/-- C6 (amended): the cache fingerprint is deterministic, and two requests
whose key data differ — in the normalized destination, either date, the
currency, the traveler count, the defaulted travel style, the sorted
interests, or the budget *rounded to the nearest 100* — have different
fingerprints whenever the serialize-and-digest step is collision-free. -/
theorem generateCacheKey_correct {α : Type} (hash : CacheKeyData → α)
    (hinj : Function.Injective hash) (r1 r2 : PlanRequest)
    (hdiff : jsTrim (jsToLower r1.destination) ≠ jsTrim (jsToLower r2.destination) ∨
      r1.startDate ≠ r2.startDate ∨ r1.endDate ≠ r2.endDate ∨
      roundBudgetTo100 r1.budget ≠ roundBudgetTo100 r2.budget ∨
      r1.currency ≠ r2.currency ∨ r1.travelers ≠ r2.travelers ∨
      cacheTravelStyle r1 ≠ cacheTravelStyle r2 ∨ cacheInterests r1 ≠ cacheInterests r2) :
    generateCacheKey hash r1 = generateCacheKey hash r1 ∧
    generateCacheKey hash r1 ≠ generateCacheKey hash r2 := by
  refine ⟨rfl, fun h => ?_⟩
  have hkey : cacheKeyData r1 = cacheKeyData r2 := hinj h
  rcases hdiff with h' | h' | h' | h' | h' | h' | h' | h'
  · exact h' (congrArg CacheKeyData.destination hkey)
  · exact h' (congrArg CacheKeyData.startDate hkey)
  · exact h' (congrArg CacheKeyData.endDate hkey)
  · exact h' (congrArg CacheKeyData.budget hkey)
  · exact h' (congrArg CacheKeyData.currency hkey)
  · exact h' (congrArg CacheKeyData.travelers hkey)
  · exact h' (congrArg CacheKeyData.travelStyle hkey)
  · exact h' (congrArg CacheKeyData.interests hkey)

/-- Base request of the C6 scenario (budget 1000). -/
def c6reqA : PlanRequest :=
  { destination := "Paris, France", startDate := 0, endDate := 5, budget := 1000
    currency := "USD", travelers := some 2, preferences := none, language := none }

/-- Identical to `c6reqA` except `budget = 1049` (rounds to the same 1000). -/
def c6reqB : PlanRequest := { c6reqA with budget := 1049 }

/-- Identical to `c6reqA` except `budget = 1200` (rounds differently). -/
def c6reqC : PlanRequest := { c6reqA with budget := 1200 }

/-- Counterexample to C6 as stated: two requests identical except for
*distinct* budget values (1000 vs 1049) produce identical key data — the
budget is rounded to the nearest 100 before hashing — hence identical
fingerprints under every hash function. -/
theorem generateCacheKey_budget_collision :
    c6reqA.budget ≠ c6reqB.budget ∧
    cacheKeyData c6reqA = cacheKeyData c6reqB ∧
    generateCacheKey (fun k => k) c6reqA = generateCacheKey (fun k => k) c6reqB := by
  have hb : roundBudgetTo100 c6reqA.budget = roundBudgetTo100 c6reqB.budget := by
    norm_num [c6reqA, c6reqB, roundBudgetTo100, jsRound, Rat.floor_def']
  have hkey : cacheKeyData c6reqA = cacheKeyData c6reqB := by
    unfold cacheKeyData
    rw [hb]
    rfl
  exact ⟨by norm_num [c6reqA, c6reqB], hkey, hkey⟩

/-- Witness for the amended C6 theorem: budgets 1000 vs 1200 round to
different multiples of 100, so the fingerprints differ (identity taken as
the collision-free digest). -/
theorem generateCacheKey_correct_witness :
    generateCacheKey (fun k => k) c6reqA = generateCacheKey (fun k => k) c6reqA ∧
    generateCacheKey (fun k => k) c6reqA ≠ generateCacheKey (fun k => k) c6reqC :=
  generateCacheKey_correct (fun k => k) (fun _ _ h => h) c6reqA c6reqC
    (Or.inr (Or.inr (Or.inr (Or.inl (by
      norm_num [c6reqA, c6reqC, roundBudgetTo100, jsRound, Rat.floor_def'])))))

/-- If some route in the list has a missing required field, the
`forEach` check fails with an index-naming message (at the first offender). -/
theorem checkRoutes_error (start : ℕ) (routes : List RouteJson)
    (h : ∃ r ∈ routes, missingRouteFields r ≠ []) :
    ∃ index missing, missing ≠ [] ∧
      checkRoutes start routes = .error (routeErrorMsg index missing) := by
  induction routes generalizing start with
  | nil => simp at h
  | cons route rest ih =>
    by_cases hroute : missingRouteFields route = []
    · have hrest : ∃ r ∈ rest, missingRouteFields r ≠ [] := by
        rcases h with ⟨r, hr, hrne⟩
        rcases List.mem_cons.mp hr with rfl | hr'
        · exact absurd hroute hrne
        · exact ⟨r, hr', hrne⟩
      obtain ⟨index, missing, hne, heq⟩ := ih (start + 1) hrest
      refine ⟨index, missing, hne, ?_⟩
      simp only [checkRoutes, hroute, List.isEmpty_nil, if_true]
      exact heq
    · refine ⟨start, missingRouteFields route, hroute, ?_⟩
      simp only [checkRoutes]
      rw [if_neg (by simpa [List.isEmpty_iff] using hroute)]

/-- C5 (amended): when the parsed plan has all four top-level fields and a
non-empty route list but some route is missing a required field, the inner
structural validator does throw an error naming a route index — but
`parseGeminiResponse` catches it and the caller observes the generic
`'Invalid response format from AI service'` error (classified further to
`'GEMINI_API_ERROR'` by `generateTravelPlan`'s error handler), not the
index-naming error. -/
theorem parseGeminiResponse_masks_route_error (plan : PlanJson) (routes : List RouteJson)
    (hroutes : plan.mainRoutes = some routes)
    (htop : missingTopFields plan = [])
    (hbad : ∃ r ∈ routes, missingRouteFields r ≠ []) :
    (∃ index missing, missing ≠ [] ∧
      validateParsedPlan plan = .error (routeErrorMsg index missing)) ∧
    parseGeminiResponseFrom plan = .error "Invalid response format from AI service" ∧
    generateObservedError plan = .error "GEMINI_API_ERROR" := by
  have hnonempty : routes ≠ [] := by
    rcases hbad with ⟨r, hr, _⟩
    exact List.ne_nil_of_mem hr
  have hval : validateParsedPlan plan = checkRoutes 0 routes := by
    unfold validateParsedPlan
    rw [htop, hroutes]
    simp [List.isEmpty_iff, hnonempty]
  obtain ⟨index, missing, hne, heq⟩ := checkRoutes_error 0 routes hbad
  refine ⟨⟨index, missing, hne, hval.trans heq⟩, ?_, ?_⟩
  · unfold parseGeminiResponseFrom
    rw [hval, heq]
  · unfold generateObservedError parseGeminiResponseFrom
    rw [hval, heq]
    rfl

/-- The concrete malformed plan of the C5 scenario: route 1 lacks `totalCost`. -/
def c5BadPlan : PlanJson :=
  { mainRoutes := some
      [{ id := some 1, name := some "Rome Classic", totalCost := none,
         breakdown := some ⟨500, 300, 200⟩, dailyPlan := some [] }]
    surpriseAlternatives := some []
    localTips := some []
    timingAdvice := some ⟨"Spring", "Mild", []⟩ }

/-- Counterexample to C5 as stated: the inner validator's message does
name the route index, but the caller of `parseGeminiResponse` (and of
`generateTravelPlan`) observes only the generic error. -/
theorem parseGeminiResponse_generic_error_counterexample :
    validateParsedPlan c5BadPlan = .error "Route 1 missing fields: totalCost" ∧
    parseGeminiResponseFrom c5BadPlan = .error "Invalid response format from AI service" ∧
    generateObservedError c5BadPlan = .error "GEMINI_API_ERROR" :=
  ⟨rfl, rfl, rfl⟩

/-- Witness for the amended C5 theorem at the concrete malformed plan. -/
theorem parseGeminiResponse_masks_route_error_witness :
    (∃ index missing, missing ≠ [] ∧
      validateParsedPlan c5BadPlan = .error (routeErrorMsg index missing)) ∧
    parseGeminiResponseFrom c5BadPlan = .error "Invalid response format from AI service" ∧
    generateObservedError c5BadPlan = .error "GEMINI_API_ERROR" :=
  parseGeminiResponse_masks_route_error c5BadPlan
    [{ id := some 1, name := some "Rome Classic", totalCost := none,
       breakdown := some ⟨500, 300, 200⟩, dailyPlan := some [] }]
    rfl rfl ⟨_, List.mem_singleton_self _, by simp [missingRouteFields]⟩

/-- Sum of a mapped list all of whose images equal `v`. -/
theorem list_sum_map_const {α : Type} (l : List α) (f : α → ℚ) (v : ℚ)
    (h : ∀ a ∈ l, f a = v) : (l.map f).sum = l.length * v := by
  induction l with
  | nil => simp
  | cons a rest ih =>
    simp only [List.map_cons, List.sum_cons, List.length_cons]
    rw [h a (List.mem_cons_self a rest), ih (fun b hb => h b (List.mem_cons_of_mem a hb))]
    push_cast
    ring

/-- The mean of a non-empty constant list is that constant. -/
theorem calculateStatistics_mean_const {α : Type} (l : List α) (f : α → ℚ) (v : ℚ)
    (hne : l ≠ []) (h : ∀ a ∈ l, f a = v) :
    (calculateStatistics (l.map f)).mean = v := by
  unfold calculateStatistics
  simp only
  have hlen : ((l.map f).length : ℚ) ≠ 0 := by
    simp only [List.length_map]
    exact_mod_cast fun h0 => hne (List.length_eq_zero.mp (by exact_mod_cast h0))
  rw [list_sum_map_const l f v h]
  simp only [List.length_map] at hlen ⊢
  field_simp

/-- A category whose value is constant across all routes produces no
outliers: every deviation from the mean is zero, so the (squared) z-score
is `0` — in particular the zero-variance division stays total and no
route is flagged. -/
theorem detectCategoryOutliers_const (routes : List Route) (c : Category) (v : ℚ)
    (hconst : ∀ r ∈ routes, categoryValue c r = v) :
    detectCategoryOutliers routes c = [] := by
  unfold detectCategoryOutliers
  rcases hre : routes with _ | ⟨r0, rest⟩
  · simp
  · rw [← hre]
    have hne : routes ≠ [] := by rw [hre]; exact List.cons_ne_nil r0 rest
    have hmean : (calculateStatistics (routes.map (categoryValue c))).mean = v :=
      calculateStatistics_mean_const routes (categoryValue c) v hne hconst
    rw [List.filterMap_eq_nil_iff]
    intro r hr
    rw [hconst r hr, hmean]
    norm_num

/-- Every outlier reported for a category carries that category's label. -/
theorem mem_detectCategoryOutliers_category (routes : List Route) (c : Category)
    (o : Outlier) (ho : o ∈ detectCategoryOutliers routes c) : o.category = c := by
  unfold detectCategoryOutliers at ho
  rcases List.mem_filterMap.mp ho with ⟨r, _, hro⟩
  dsimp only at hro
  split at hro
  · cases hro
    rfl
  · cases hro

/-- The outlier list produced above the 2-route threshold. -/
theorem detectPriceOutliers_outliers_eq (routes : List Route)
    (h : ¬ routes.length < 2) :
    (detectPriceOutliers routes).outliers =
      [Category.totalCost, Category.flights, Category.hotels, Category.activities].flatMap
        (detectCategoryOutliers routes) := by
  unfold detectPriceOutliers
  rw [if_neg h]

/-- C8: for every plan with at least 2 routes in which some cost category
is constant across all routes (zero population variance), the outlier
detector records no outlier for that category and the computation stays
total (the degenerate `0 / 0` z-score is not greater than the threshold). -/
theorem detectPriceOutliers_zero_variance (routes : List Route) (c : Category) (v : ℚ)
    (hlen : 2 ≤ routes.length) (hconst : ∀ r ∈ routes, categoryValue c r = v) :
    detectCategoryOutliers routes c = [] ∧
    ∀ o ∈ (detectPriceOutliers routes).outliers, o.category ≠ c := by
  have hcat := detectCategoryOutliers_const routes c v hconst
  refine ⟨hcat, fun o ho => ?_⟩
  rw [detectPriceOutliers_outliers_eq routes (by omega)] at ho
  rcases List.mem_flatMap.mp ho with ⟨c', hc', ho'⟩
  have hoc : o.category = c' := mem_detectCategoryOutliers_category routes c' o ho'
  intro hocc
  have : c' = c := by rw [← hoc, hocc]
  rw [this, hcat] at ho'
  exact (List.not_mem_nil o) ho'

/-- Two routes with identical hotel costs for the C8 witness. -/
def c8routes : List Route :=
  [ ⟨1, "Route A", 100, ⟨40, 30, 20⟩, []⟩,
    ⟨2, "Route B", 200, ⟨90, 30, 60⟩, []⟩ ]

/-- Witness for C8 at two routes whose `hotels` category is constant. -/
theorem detectPriceOutliers_zero_variance_witness :
    detectCategoryOutliers c8routes Category.hotels = [] ∧
    ∀ o ∈ (detectPriceOutliers c8routes).outliers, o.category ≠ Category.hotels :=
  detectPriceOutliers_zero_variance c8routes Category.hotels 30
    (by simp [c8routes]) (by intro r hr; fin_cases hr <;> rfl)

/-- Three routes with total costs 1000, 1050, 5000 and identical
breakdowns — the C2 scenario. -/
def c2routes : List Route :=
  [ ⟨1, "Route A", 1000, ⟨500, 300, 200⟩, []⟩,
    ⟨2, "Route B", 1050, ⟨500, 300, 200⟩, []⟩,
    ⟨3, "Route C", 5000, ⟨500, 300, 200⟩, []⟩ ]

/-- The `totalCost` scan over `c2routes` flags nothing: the 5000 route's
deviation (2650) is below twice the population standard deviation
(≈ 1873.9). -/
theorem detectCategoryOutliers_c2_totalCost :
    detectCategoryOutliers c2routes Category.totalCost = [] := by
  norm_num [detectCategoryOutliers, calculateStatistics, categoryValue, c2routes,
    List.filterMap_cons]

/-- No category of `c2routes` produces an outlier. -/
theorem c2routes_outliers_nil : (detectPriceOutliers c2routes).outliers = [] := by
  rw [detectPriceOutliers_outliers_eq c2routes (by simp [c2routes])]
  have hf : detectCategoryOutliers c2routes Category.flights = [] :=
    detectCategoryOutliers_const c2routes Category.flights 500
      (by intro r hr; fin_cases hr <;> rfl)
  have hh : detectCategoryOutliers c2routes Category.hotels = [] :=
    detectCategoryOutliers_const c2routes Category.hotels 300
      (by intro r hr; fin_cases hr <;> rfl)
  have ha : detectCategoryOutliers c2routes Category.activities = [] :=
    detectCategoryOutliers_const c2routes Category.activities 200
      (by intro r hr; fin_cases hr <;> rfl)
  simp [detectCategoryOutliers_c2_totalCost, hf, hh, ha]

/-- Counterexample to C2 as stated: with category values
`{1000, 1050, 5000}` the outlier detector flags *no* route at all — in
particular it does not flag the 5000 route. -/
theorem detectPriceOutliers_c2_counterexample :
    c2routes.map (categoryValue Category.totalCost) = [1000, 1050, 5000] ∧
    (detectPriceOutliers c2routes).outliers = [] :=
  ⟨by simp [c2routes, categoryValue], c2routes_outliers_nil⟩

/-- C2 (amended): for a plan with exactly 3 routes valued 1000, 1050 and
5000 in one category, the detector records no outliers and no warning —
the 5000 route's squared z-score is `21067500/10535000 ≈ 2.0 < 4` (z ≈
1.414 ≤ 2; with three routes a population z-score can never exceed `√2`). -/
theorem detectPriceOutliers_c2_amended :
    detectPriceOutliers c2routes = { warnings := [], outliers := [] } ∧
    ((5000 - (calculateStatistics (c2routes.map (categoryValue Category.totalCost))).mean)^2 /
      (calculateStatistics (c2routes.map (categoryValue Category.totalCost))).variance) < 4 := by
  constructor
  · have h := c2routes_outliers_nil
    unfold detectPriceOutliers at h ⊢
    rw [if_neg (by simp [c2routes])] at h ⊢
    dsimp only at h ⊢
    rw [h]
    simp
  · norm_num [calculateStatistics, categoryValue, c2routes]

/-- A guarded append of a truncated decorated list equals the unguarded
one (the guard only skips an append that would be empty anyway). -/
theorem appendIf_take_map (t l : List String) (n : ℕ) (f : String → String) :
    (if l.length > 0 then t ++ (l.take n).map f else t) = t ++ (l.take n).map f := by
  cases l with
  | nil => simp
  | cons a rest => rw [if_pos (by simp)]

/-- A guarded append of a decorated list equals the unguarded one. -/
theorem appendIf_map (t l : List String) (f : String → String) :
    (if l.length > 0 then t ++ l.map f else t) = t ++ l.map f := by
  cases l with
  | nil => simp
  | cons a rest => rw [if_pos (by simp)]

/-- C9: on the successful path the persisted `localTips` are exactly the
AI's tips, then at most the first 3 price warnings (prefixed), then *all*
destination warnings (prefixed), then at most the first 2 safety
recommendations (prefixed) — price warnings beyond the first three never
reach the persisted tips. -/
theorem processTravelPlan_tips_folding (planId : String) (planRequest : PlanRequest)
    (destinationInfo : DestinationVerdict) (aiResponse : TravelPlanGen) (convert : ConvertFn) :
    (processTravelPlan planId planRequest destinationInfo (.ok aiResponse) convert).localTips =
      aiResponse.localTips ++
      ((validateTravelPlan convert aiResponse planRequest).warnings.take 3).map
        (fun warning => "⚠️ Price Alert: " ++ warning) ++
      destinationInfo.warnings.map (fun warning => "🚨 Travel Advisory: " ++ warning) ++
      (destinationInfo.recommendations.take 2).map
        (fun rec => "📋 Travel Info: " ++ rec) := by
  unfold processTravelPlan
  dsimp only
  rw [appendIf_take_map, appendIf_map, appendIf_take_map]

/-- The visa-class step never changes `isSafe` or `isAccessible`. -/
theorem addVisaClassRecommendation_safety (r : DestinationVerdict) (c : String) :
    (addVisaClassRecommendation r c).isSafe = r.isSafe ∧
    (addVisaClassRecommendation r c).isAccessible = r.isAccessible := by
  unfold addVisaClassRecommendation
  split_ifs <;> exact ⟨rfl, rfl⟩

/-- The country-specific step never changes `isSafe` or `isAccessible`. -/
theorem addCountryRecommendation_safety (r : DestinationVerdict) (c target : String)
    (recs : List String) :
    (addCountryRecommendation r c target recs).isSafe = r.isSafe ∧
    (addCountryRecommendation r c target recs).isAccessible = r.isAccessible := by
  unfold addCountryRecommendation
  split_ifs <;> exact ⟨rfl, rfl⟩

/-- The Schengen step never changes `isSafe` or `isAccessible`. -/
theorem addSchengenRecommendation_safety (r : DestinationVerdict) (c : String) :
    (addSchengenRecommendation r c).isSafe = r.isSafe ∧
    (addSchengenRecommendation r c).isAccessible = r.isAccessible := by
  unfold addSchengenRecommendation
  split_ifs <;> exact ⟨rfl, rfl⟩

/-- `addTurkishTravelerRecommendations` never changes the safety verdict. -/
theorem addTurkishTravelerRecommendations_isSafe (r : DestinationVerdict) (c : String) :
    (addTurkishTravelerRecommendations r c).isSafe = r.isSafe := by
  unfold addTurkishTravelerRecommendations
  dsimp only
  rw [(addSchengenRecommendation_safety _ c).1, (addCountryRecommendation_safety _ c _ _).1,
    (addCountryRecommendation_safety _ c _ _).1, (addCountryRecommendation_safety _ c _ _).1,
    (addCountryRecommendation_safety _ c _ _).1, (addVisaClassRecommendation_safety _ c).1]

/-- `addTurkishTravelerRecommendations` never changes accessibility. -/
theorem addTurkishTravelerRecommendations_isAccessible (r : DestinationVerdict) (c : String) :
    (addTurkishTravelerRecommendations r c).isAccessible = r.isAccessible := by
  unfold addTurkishTravelerRecommendations
  dsimp only
  rw [(addSchengenRecommendation_safety _ c).2, (addCountryRecommendation_safety _ c _ _).2,
    (addCountryRecommendation_safety _ c _ _).2, (addCountryRecommendation_safety _ c _ _).2,
    (addCountryRecommendation_safety _ c _ _).2, (addVisaClassRecommendation_safety _ c).2]

/-- The city-info step never changes the safety verdict. -/
theorem applyCityAirportInfo_isSafe (loc : ParsedLocation) (r : DestinationVerdict) :
    (applyCityAirportInfo loc r).isSafe = r.isSafe := by
  unfold applyCityAirportInfo
  rcases loc.city with _ | city
  · rfl
  · dsimp only
    rcases cityLookup city with _ | d <;> rfl

/-- The city-info step never changes accessibility of travel
(`isAccessible`; the `accessibility` sub-record does change). -/
theorem applyCityAirportInfo_isAccessible (loc : ParsedLocation) (r : DestinationVerdict) :
    (applyCityAirportInfo loc r).isAccessible = r.isAccessible := by
  unfold applyCityAirportInfo
  rcases loc.city with _ | city
  · rfl
  · dsimp only
    rcases cityLookup city with _ | d <;> rfl

/-- `isSafe` of the final verdict is decided by the table branch alone. -/
theorem verifyDestination_isSafe (destination : String) :
    (verifyDestination destination).isSafe =
      (verdictFromTables (parseDestination destination)).isSafe := by
  unfold verifyDestination
  dsimp only
  rw [addTurkishTravelerRecommendations_isSafe, applyCityAirportInfo_isSafe]

/-- `isAccessible` of the final verdict is decided by the table branch alone. -/
theorem verifyDestination_isAccessible (destination : String) :
    (verifyDestination destination).isAccessible =
      (verdictFromTables (parseDestination destination)).isAccessible := by
  unfold verifyDestination
  dsimp only
  rw [addTurkishTravelerRecommendations_isAccessible, applyCityAirportInfo_isAccessible]

/-- Every entry of the advisory table is marked unsafe. -/
theorem advisory_entries_unsafe : ∀ p ∈ advisoryDestinations, p.2.safe = false := by
  decide

/-- A successful advisory-table lookup returns an unsafe entry. -/
theorem tableLookup_advisory_unsafe (country : String) (e : DestEntry)
    (h : tableLookup advisoryDestinations country = some e) : e.safe = false := by
  unfold tableLookup at h
  rcases hfind : advisoryDestinations.find? (fun p => p.1 = country) with _ | p
  · rw [hfind] at h
    cases h
  · rw [hfind] at h
    simp only [Option.map_some', Option.some.injEq] at h
    have hmem := List.mem_of_find?_eq_some hfind
    rw [← h]
    exact advisory_entries_unsafe p hmem

/-- The advisory branch copies the entry's `safe` flag into both `isSafe`
and `isAccessible`. -/
theorem verdictFromTables_advisory (loc : ParsedLocation) (e : DestEntry)
    (h : tableLookup advisoryDestinations loc.country = some e) :
    (verdictFromTables loc).isSafe = e.safe ∧
    (verdictFromTables loc).isAccessible = e.safe := by
  unfold verdictFromTables
  dsimp only
  rw [h]
  exact ⟨rfl, rfl⟩

/-- Does the destination resolve to a country of the travel-advisory table? -/
def isAdvisoryCountry (country : String) : Bool :=
  (tableLookup advisoryDestinations country).isSome

/-- C1: whenever the destination resolves (city substring first, then
country substring) to a country of the travel-advisory table, the verdict
carries `isSafe = false`, `generateTravelPlan` returns the synchronous
rejection, and no plan record is created for that call (the background
continuation — the only place a record is created — never runs). -/
theorem submitPlanRequest_rejects_advisory (planId : String) (planRequest : PlanRequest)
    (aiOutcome : Except String TravelPlanGen) (convert : ConvertFn)
    (hadv : isAdvisoryCountry (parseDestination planRequest.destination).country = true) :
    (verifyDestination planRequest.destination).isSafe = false ∧
    (generateTravelPlan planId planRequest aiOutcome convert).rejected = true ∧
    (generateTravelPlan planId planRequest aiOutcome convert).createdPlans = [] := by
  obtain ⟨e, he⟩ :
      ∃ e, tableLookup advisoryDestinations
        (parseDestination planRequest.destination).country = some e := by
    unfold isAdvisoryCountry at hadv
    exact Option.isSome_iff_exists.mp hadv
  have hunsafe : e.safe = false := tableLookup_advisory_unsafe _ e he
  have htab := verdictFromTables_advisory (parseDestination planRequest.destination) e he
  have hsafe : (verifyDestination planRequest.destination).isSafe = false := by
    rw [verifyDestination_isSafe, htab.1, hunsafe]
  refine ⟨hsafe, ?_, ?_⟩ <;>
  · unfold generateTravelPlan
    dsimp only
    rw [if_pos (by simp [hsafe])]

/-- Request used for the C1 witness: a destination in the advisory table. -/
def c1request : PlanRequest :=
  { destination := "Syria", startDate := 0, endDate := 5, budget := 1000
    currency := "USD", travelers := some 1, preferences := none, language := none }

/-- Witness for C1 at the concrete destination "Syria". -/
theorem submitPlanRequest_rejects_advisory_witness :
    (verifyDestination c1request.destination).isSafe = false ∧
    (generateTravelPlan "plan_1" c1request (.error "unused") failingConvert).rejected = true ∧
    (generateTravelPlan "plan_1" c1request (.error "unused") failingConvert).createdPlans = [] :=
  submitPlanRequest_rejects_advisory "plan_1" c1request (.error "unused") failingConvert
    (by decide)

/-- A per-person flight cost inside the scaled international band neither
errors nor invalidates. -/
theorem validateFlightPrices_within (flightCost travelers : ℚ) (b : Boundaries)
    (hmin : b.flights.international.min ≤ flightCost / travelers)
    (hmax : flightCost / travelers ≤ b.flights.international.max) :
    (validateFlightPrices flightCost travelers b).isValid = true ∧
    (validateFlightPrices flightCost travelers b).errors = [] := by
  unfold validateFlightPrices
  dsimp only
  split_ifs with h1 h2 h3
  · exact ⟨rfl, rfl⟩
  · exact absurd h2 (not_lt.mpr hmax)
  · exact ⟨rfl, rfl⟩
  · exact ⟨rfl, rfl⟩

/-- A per-night hotel cost inside the scaled style band neither errors nor
invalidates. -/
theorem validateHotelPrices_within (hotelCost duration : ℚ) (b : Boundaries)
    (travelStyle : String)
    (hmin : (hotelBandFor b travelStyle).min ≤ hotelCost / duration)
    (hmax : hotelCost / duration ≤ (hotelBandFor b travelStyle).max) :
    (validateHotelPrices hotelCost duration b travelStyle).isValid = true ∧
    (validateHotelPrices hotelCost duration b travelStyle).errors = [] := by
  unfold validateHotelPrices
  dsimp only
  split_ifs with h1 h2 h3
  · exact ⟨rfl, rfl⟩
  · exact absurd h2 (not_lt.mpr hmax)
  · exact ⟨rfl, rfl⟩
  · exact ⟨rfl, rfl⟩

/-- `travelers || 1` is at least 1. -/
theorem jsTravelers_pos (r : PlanRequest) : 1 ≤ jsTravelers r := by
  cases htr : r.travelers with
  | none => simp [jsTravelers, htr]
  | some n =>
    cases n with
    | zero => simp [jsTravelers, htr]
    | succ m =>
      simp only [jsTravelers, htr]
      omega

/-- The rational traveler count is positive. -/
theorem requestTravelersQ_pos (r : PlanRequest) : 0 < requestTravelersQ r := by
  unfold requestTravelersQ
  exact_mod_cast jsTravelers_pos r

/-- C4: for a route whose per-person flight cost and per-night hotel cost
lie within their scaled bands, a total cost of exactly 130% of the
per-traveler reference budget invalidates the route and makes the overall
report's `isValid` false, while a total cost of exactly 105% keeps the
route valid with no errors and produces the slightly-exceeds-budget
warning (and the overall report stays valid). -/
theorem validateRoute_budget_thresholds (request : PlanRequest) (budgetInUSD : ℚ)
    (plan130 plan105 : TravelPlanGen) (r130 r105 : Route)
    (hb : 0 < budgetInUSD)
    (hm130 : plan130.mainRoutes = [r130])
    (hm105 : plan105.mainRoutes = [r105])
    (hf130min : (requestBoundaries request).flights.international.min ≤
      r130.breakdown.flights / requestTravelersQ request)
    (hf130max : r130.breakdown.flights / requestTravelersQ request ≤
      (requestBoundaries request).flights.international.max)
    (hh130min : (hotelBandFor (requestBoundaries request)
        ((requestStyleArg request).getD "mid-range")).min ≤
      r130.breakdown.hotels / requestDurationQ request)
    (hh130max : r130.breakdown.hotels / requestDurationQ request ≤
      (hotelBandFor (requestBoundaries request)
        ((requestStyleArg request).getD "mid-range")).max)
    (hf105min : (requestBoundaries request).flights.international.min ≤
      r105.breakdown.flights / requestTravelersQ request)
    (hf105max : r105.breakdown.flights / requestTravelersQ request ≤
      (requestBoundaries request).flights.international.max)
    (hh105min : (hotelBandFor (requestBoundaries request)
        ((requestStyleArg request).getD "mid-range")).min ≤
      r105.breakdown.hotels / requestDurationQ request)
    (hh105max : r105.breakdown.hotels / requestDurationQ request ≤
      (hotelBandFor (requestBoundaries request)
        ((requestStyleArg request).getD "mid-range")).max)
    (hc130 : r130.totalCost = (13/10) * (budgetInUSD / requestTravelersQ request))
    (hc105 : r105.totalCost = (21/20) * (budgetInUSD / requestTravelersQ request)) :
    (validateRoute r130 budgetInUSD (requestDurationQ request) (requestTravelersQ request)
      (countryMultiplierOf (extractCountry request.destination))
      (requestStyleArg request)).isValid = false ∧
    (validateTravelPlanCore budgetInUSD plan130 request).isValid = false ∧
    (validateRoute r105 budgetInUSD (requestDurationQ request) (requestTravelersQ request)
      (countryMultiplierOf (extractCountry request.destination))
      (requestStyleArg request)).isValid = true ∧
    (validateRoute r105 budgetInUSD (requestDurationQ request) (requestTravelersQ request)
      (countryMultiplierOf (extractCountry request.destination))
      (requestStyleArg request)).errors = [] ∧
    slightlyExceedsMsg r105.totalCost ∈
      (validateRoute r105 budgetInUSD (requestDurationQ request) (requestTravelersQ request)
        (countryMultiplierOf (extractCountry request.destination))
        (requestStyleArg request)).warnings ∧
    (validateTravelPlanCore budgetInUSD plan105 request).isValid = true := by
  have ht : 0 < requestTravelersQ request := requestTravelersQ_pos request
  have hbpp : 0 < budgetInUSD / requestTravelersQ request := div_pos hb ht
  have hfv130 := validateFlightPrices_within r130.breakdown.flights (requestTravelersQ request)
    (requestBoundaries request) hf130min hf130max
  have hhv130 := validateHotelPrices_within r130.breakdown.hotels (requestDurationQ request)
    (requestBoundaries request) ((requestStyleArg request).getD "mid-range") hh130min hh130max
  have hfv105 := validateFlightPrices_within r105.breakdown.flights (requestTravelersQ request)
    (requestBoundaries request) hf105min hf105max
  have hhv105 := validateHotelPrices_within r105.breakdown.hotels (requestDurationQ request)
    (requestBoundaries request) ((requestStyleArg request).getD "mid-range") hh105min hh105max
  unfold requestBoundaries at hfv130 hhv130 hfv105 hhv105
  have hover130 : r130.totalCost >
      budgetInUSD / requestTravelersQ request * (12/10) := by
    rw [hc130]; nlinarith [hbpp]
  have hover105 : ¬ (r105.totalCost >
      budgetInUSD / requestTravelersQ request * (12/10)) := by
    rw [hc105]; nlinarith [hbpp]
  have hslight105 : r105.totalCost > budgetInUSD / requestTravelersQ request := by
    rw [hc105]; nlinarith [hbpp]
  have hroute130 : (validateRoute r130 budgetInUSD (requestDurationQ request)
      (requestTravelersQ request) (countryMultiplierOf (extractCountry request.destination))
      (requestStyleArg request)).isValid = false := by
    unfold validateRoute
    dsimp only
    rw [decide_eq_true hover130]
    simp
  have hroute105valid : (validateRoute r105 budgetInUSD (requestDurationQ request)
      (requestTravelersQ request) (countryMultiplierOf (extractCountry request.destination))
      (requestStyleArg request)).isValid = true := by
    unfold validateRoute
    dsimp only
    rw [decide_eq_false hover105, hfv105.1, hhv105.1]
    rfl
  have hroute105errors : (validateRoute r105 budgetInUSD (requestDurationQ request)
      (requestTravelersQ request) (countryMultiplierOf (extractCountry request.destination))
      (requestStyleArg request)).errors = [] := by
    unfold validateRoute
    dsimp only
    rw [decide_eq_false hover105, hfv105.2, hhv105.2]
    simp
  have hroute105warn : slightlyExceedsMsg r105.totalCost ∈
      (validateRoute r105 budgetInUSD (requestDurationQ request)
        (requestTravelersQ request) (countryMultiplierOf (extractCountry request.destination))
        (requestStyleArg request)).warnings := by
    unfold validateRoute
    dsimp only
    rw [decide_eq_false hover105, decide_eq_true hslight105]
    simp
  refine ⟨hroute130, ?_, hroute105valid, hroute105errors, hroute105warn, ?_⟩
  · unfold validateTravelPlanCore
    dsimp only
    rw [hm130]
    simp [hroute130]
  · unfold validateTravelPlanCore
    dsimp only
    rw [hm105]
    simp [hroute105valid]

/-- Request of the C4 witness scenario: Paris, 5 days, 1 traveler,
1000 USD, default mid-range style. -/
def c4request : PlanRequest :=
  { destination := "Paris, France", startDate := 0, endDate := 5, budget := 1000
    currency := "USD", travelers := some 1, preferences := none, language := none }

/-- Route at 130% of the per-traveler budget (components within bands). -/
def c4route130 : Route := ⟨1, "Royal Paris", 1300, ⟨300, 300, 100⟩, []⟩

/-- Route at 105% of the per-traveler budget (components within bands). -/
def c4route105 : Route := ⟨2, "Classic Paris", 1050, ⟨300, 300, 100⟩, []⟩

/-- Single-route plan holding the 130% route. -/
def c4plan130 : TravelPlanGen :=
  { mainRoutes := [c4route130], surpriseAlternatives := [], localTips := []
    timingAdvice := ⟨"Spring", "Mild", []⟩ }

/-- Single-route plan holding the 105% route. -/
def c4plan105 : TravelPlanGen :=
  { mainRoutes := [c4route105], surpriseAlternatives := [], localTips := []
    timingAdvice := ⟨"Spring", "Mild", []⟩ }

/-- The C4 witness request resolves to France (×1.1) with mid-range style
(×1.0). -/
theorem c4request_boundaries :
    requestBoundaries c4request = adjustBoundariesForCountry (11/10) 1 := by
  unfold requestBoundaries
  rw [show extractCountry c4request.destination = "France" from by decide]
  simp +decide [countryMultiplierOf, countryMultipliers, List.find?, requestStyleArg,
    c4request, getTravelStyleMultiplier]

/-- Witness for C4 at the concrete Paris scenario. -/
theorem validateRoute_budget_thresholds_witness :
    (validateRoute c4route130 1000 (requestDurationQ c4request) (requestTravelersQ c4request)
      (countryMultiplierOf (extractCountry c4request.destination))
      (requestStyleArg c4request)).isValid = false ∧
    (validateTravelPlanCore 1000 c4plan130 c4request).isValid = false ∧
    (validateRoute c4route105 1000 (requestDurationQ c4request) (requestTravelersQ c4request)
      (countryMultiplierOf (extractCountry c4request.destination))
      (requestStyleArg c4request)).isValid = true ∧
    (validateRoute c4route105 1000 (requestDurationQ c4request) (requestTravelersQ c4request)
      (countryMultiplierOf (extractCountry c4request.destination))
      (requestStyleArg c4request)).errors = [] ∧
    slightlyExceedsMsg c4route105.totalCost ∈
      (validateRoute c4route105 1000 (requestDurationQ c4request) (requestTravelersQ c4request)
        (countryMultiplierOf (extractCountry c4request.destination))
        (requestStyleArg c4request)).warnings ∧
    (validateTravelPlanCore 1000 c4plan105 c4request).isValid = true :=
  validateRoute_budget_thresholds c4request 1000 c4plan130 c4plan105 c4route130 c4route105
    (by norm_num)
    rfl rfl
    (by rw [c4request_boundaries]
        norm_num [adjustBoundariesForCountry, scaleBand, priceBoundaries, c4route130,
          requestTravelersQ, jsTravelers, c4request])
    (by rw [c4request_boundaries]
        norm_num [adjustBoundariesForCountry, scaleBand, priceBoundaries, c4route130,
          requestTravelersQ, jsTravelers, c4request])
    (by rw [c4request_boundaries]
        simp +decide [hotelBandFor, adjustBoundariesForCountry, scaleBand, priceBoundaries,
          requestStyleArg, requestDurationQ, calculateDuration, c4request, c4route130]
        norm_num)
    (by rw [c4request_boundaries]
        simp +decide [hotelBandFor, adjustBoundariesForCountry, scaleBand, priceBoundaries,
          requestStyleArg, requestDurationQ, calculateDuration, c4request, c4route130]
        norm_num)
    (by rw [c4request_boundaries]
        norm_num [adjustBoundariesForCountry, scaleBand, priceBoundaries, c4route105,
          requestTravelersQ, jsTravelers, c4request])
    (by rw [c4request_boundaries]
        norm_num [adjustBoundariesForCountry, scaleBand, priceBoundaries, c4route105,
          requestTravelersQ, jsTravelers, c4request])
    (by rw [c4request_boundaries]
        simp +decide [hotelBandFor, adjustBoundariesForCountry, scaleBand, priceBoundaries,
          requestStyleArg, requestDurationQ, calculateDuration, c4request, c4route105]
        norm_num)
    (by rw [c4request_boundaries]
        simp +decide [hotelBandFor, adjustBoundariesForCountry, scaleBand, priceBoundaries,
          requestStyleArg, requestDurationQ, calculateDuration, c4request, c4route105]
        norm_num)
    (by norm_num [c4route130, requestTravelersQ, jsTravelers, c4request])
    (by norm_num [c4route105, requestTravelersQ, jsTravelers, c4request])

end TravelAI
